import Mathlib

/-!
Shallow embedding of `cmd/gangway/main.go` (the gangway authentication
gateway's entry point): the startup sequence, TLS trust-pool construction,
route registration, request logging wrapper, server configuration, and the
signal-driven shutdown path.  External effects (config loading, the system
certificate pool, file reads, PEM parsing) are supplied by an `Env` record;
fatal exits and process steps are modelled as an explicit step trace.
-/

namespace Gangway

/-- The fields of `Config` consumed by `main.go`. -/
structure Config where
  ClientID : String
  ClientSecret : String
  RedirectURL : String
  Scopes : List String
  AuthorizeURL : String
  TokenURL : String
  Host : String
  Port : Nat
  ServeTLS : Bool
  CertFile : String
  KeyFile : String
  TrustedCAPath : String
  deriving DecidableEq

/-- `oauth2.Endpoint` from `golang.org/x/oauth2`. -/
structure OAuth2Endpoint where
  AuthURL : String
  TokenURL : String
  deriving DecidableEq

/-- `oauth2.Config` from `golang.org/x/oauth2` (the fields `main.go` sets). -/
structure OAuth2Config where
  ClientID : String
  ClientSecret : String
  RedirectURL : String
  Scopes : List String
  Endpoint : OAuth2Endpoint
  deriving DecidableEq

/-- The `oauth2.Config` literal built in `main` (lines 61-70 of `main.go`). -/
def mkOAuth2Config (cfg : Config) : OAuth2Config :=
  { ClientID := cfg.ClientID
    ClientSecret := cfg.ClientSecret
    RedirectURL := cfg.RedirectURL
    Scopes := cfg.Scopes
    Endpoint := { AuthURL := cfg.AuthorizeURL, TokenURL := cfg.TokenURL } }

/-- Certificates are abstract tokens; a pool is the list of certificates it
holds (`x509.CertPool` membership is all that matters for trust). -/
abbrev Cert := Nat

/-- Raw file contents (`[]byte`). -/
abbrev Bytes := List Nat

/-- `tls.Config` (the field `main.go` sets). -/
structure TLSConfig where
  RootCAs : List Cert
  deriving DecidableEq

/-- `http.Transport` (the field `main.go` sets). -/
structure Transport where
  tlsClientConfig : TLSConfig
  deriving DecidableEq

/-- `http.Client` (the field `main.go` sets). -/
structure HTTPClient where
  transport : Transport
  deriving DecidableEq

/-- External collaborators of `main`: the config loader (`NewConfig`), the
system certificate pool (`x509.SystemCertPool`), the filesystem
(`ioutil.ReadFile`) and the PEM certificate parser underlying
`x509.CertPool.AppendCertsFromPEM`. -/
structure Env where
  configLoad : Except String Config
  systemCertPool : Option (List Cert)
  readFile : String → Except String Bytes
  parsePEMCerts : Bytes → List Cert

/-- `x509.CertPool.AppendCertsFromPEM`: appends every certificate parsed from
the PEM bytes and reports whether at least one was appended. -/
def appendCertsFromPEM (env : Env) (pool : List Cert) (pem : Bytes) :
    List Cert × Bool :=
  let cs := env.parsePEMCerts pem
  (pool ++ cs, !cs.isEmpty)

/-- The pool `main` starts from: `x509.SystemCertPool()`, replaced by
`x509.NewCertPool()` (empty) when the system pool is unavailable
(lines 72-75 of `main.go`). -/
def basePool (env : Env) : List Cert :=
  match env.systemCertPool with
  | some p => p
  | none => []

/-- Lines 72-88 of `main.go`: build the root-CA pool.  A set `TrustedCAPath`
whose file cannot be read is a `log.Fatalf` (modelled as `Except.error`);
reading it but appending no certificate only logs a warning (returned in the
second component) and keeps the pool as it was. -/
def buildRootCAs (env : Env) (cfg : Config) :
    Except String (List Cert × List String) :=
  let rootCAs := basePool env
  if cfg.TrustedCAPath ≠ "" then
    match env.readFile cfg.TrustedCAPath with
    | .error e =>
        .error ("Failed to append " ++ cfg.TrustedCAPath ++ " to RootCAs: " ++ e)
    | .ok certs =>
        let res := appendCertsFromPEM env rootCAs certs
        if res.2 then .ok (res.1, [])
        else .ok (res.1, ["No certs appended, using system certs only"])
  else .ok (rootCAs, [])

/-- The certificates contributed by the optional custom CA file: those parsed
from `TrustedCAPath` when it is set and readable, and none otherwise. -/
def customCerts (env : Env) (cfg : Config) : List Cert :=
  if cfg.TrustedCAPath ≠ "" then
    match env.readFile cfg.TrustedCAPath with
    | .ok b => env.parsePEMCerts b
    | .error _ => []
  else []

/-- Lines 90-95 of `main.go`: the HTTP client trusting the augmented pool via
its transport's TLS configuration. -/
def buildHTTPClient (pool : List Cert) : HTTPClient :=
  { transport := { tlsClientConfig := { RootCAs := pool } } }

/-- An inbound HTTP request (the fields `httpLogger` reads). -/
structure Request where
  method : String
  url : String
  remoteAddr : String
  deriving DecidableEq

/-- An HTTP response, reduced to what the routed handlers produce. -/
inductive Response where
  | redirect (status : Nat) (location : String)
  | content (status : Nat) (body : String)
  deriving DecidableEq

/-- A log line emitted while serving a request. -/
inductive LogEvent where
  | requestLine (method url remoteAddr : String)
  | message (s : String)
  deriving DecidableEq

/-- What running a handler on a request produces: its log output in order,
and its response. -/
structure HandlerResult where
  logs : List LogEvent
  response : Response
  deriving DecidableEq

abbrev Handler := Request → HandlerResult

/-- Lines 42-47 of `main.go`: the logging wrapper.  The deferred
`log.Printf("%s %s %s", r.Method, r.URL, r.RemoteAddr)` runs after the
wrapped handler, appending exactly one request line to the log output. -/
def httpLogger (fn : Handler) : Handler := fun r =>
  let res := fn r
  { logs := res.logs ++ [LogEvent.requestLine r.method r.url r.remoteAddr]
    response := res.response }

/-- Modelled from the spec: the `loginRequired` access middleware is
referenced by `main.go` but defined outside `src/`.  Per spec §4.4 it calls
`IsAuthenticated`; false ⇒ 302 redirect to `/login` with the wrapped handler
not invoked; true ⇒ invoke the wrapped handler unchanged. -/
def loginRequired (isAuth : Request → Bool) (h : Handler) : Handler := fun r =>
  if isAuth r then h r
  else { logs := [], response := Response.redirect 302 "/login" }

/-- The concrete handlers `main.go` registers (defined outside `src/`), plus
the session authentication check the middleware consults. -/
structure Handlers where
  homeHandler : Handler
  loginHandler : Handler
  callbackHandler : Handler
  logoutHandler : Handler
  commandlineHandler : Handler
  isAuth : Request → Bool

/-- Lines 101-107 of `main.go`: the route registrations, in order.  `/`,
`/login` and `/callback` are wrapped in `httpLogger`; `/logout` and
`/commandline` go through the `loginRequired` middleware chain
(`alice.New(loginRequired).ThenFunc`). -/
def routeTable (hs : Handlers) : List (String × Handler) :=
  [("/", httpLogger hs.homeHandler),
   ("/login", httpLogger hs.loginHandler),
   ("/callback", httpLogger hs.callbackHandler),
   ("/logout", loginRequired hs.isAuth hs.logoutHandler),
   ("/commandline", loginRequired hs.isAuth hs.commandlineHandler)]

/-- `net/http` `ServeMux` pattern matching: a pattern ending in a slash
matches any path it prefixes (a subtree), any other pattern matches its path
exactly. -/
def patMatches (pat path : String) : Bool :=
  if pat.data.getLast? = some '/' then pat.data.isPrefixOf path.data
  else pat == path

/-- `ServeMux` dispatch: among the registered patterns matching the path, the
longest wins. -/
def muxMatch (pats : List String) (path : String) : Option String :=
  (pats.filter (fun p => patMatches p path)).foldl
    (fun acc p =>
      match acc with
      | none => some p
      | some q => if q.length < p.length then some p else some q) none

def registeredPatterns (hs : Handlers) : List String :=
  (routeTable hs).map Prod.fst

/-- The handler the default `ServeMux` dispatches a path to. -/
def dispatch (hs : Handlers) (path : String) : Option Handler :=
  match muxMatch (registeredPatterns hs) path with
  | some pat => (routeTable hs).lookup pat
  | none => none

/-- The signals `main` subscribes to. -/
inductive Signal where
  | SIGINT
  | SIGTERM
  deriving DecidableEq

/-- A Go `context.Context`, reduced to its cancellation deadline. -/
structure GoContext where
  deadline : Option Nat
  deriving DecidableEq

/-- `context.Background()`: never cancelled, no deadline. -/
def contextBackground : GoContext := { deadline := none }

/-- `http.Server` (the fields `main.go` sets, lines 109-115). -/
structure HTTPServer where
  Addr : String
  ReadTimeoutSeconds : Nat
  WriteTimeoutSeconds : Nat
  deriving DecidableEq

/-- The `http.Server` literal in `main`: address `fmt.Sprintf("%s:%d", ...)`
and 10-second read/write timeouts. -/
def mkHTTPServer (cfg : Config) : HTTPServer :=
  { Addr := cfg.Host ++ ":" ++ toString cfg.Port
    ReadTimeoutSeconds := 10
    WriteTimeoutSeconds := 10 }

/-- Which serve call the goroutine makes (lines 118-126). -/
inductive ServeMode where
  | tls (certFile keyFile : String)
  | plain
  deriving DecidableEq

def serveMode (cfg : Config) : ServeMode :=
  if cfg.ServeTLS = true then ServeMode.tls cfg.CertFile cfg.KeyFile
  else ServeMode.plain

/-- Outcome of the serve goroutine's `log.Fatal(httpServer.ListenAndServe...)`:
a listener bind error is logged fatally, terminating the process; otherwise
the accept loop serves. -/
inductive ServeOutcome where
  | fatalExit (msg : String)
  | serving
  deriving DecidableEq

def runServe (bindResult : Except String Unit) : ServeOutcome :=
  match bindResult with
  | .error e => ServeOutcome.fatalExit e
  | .ok _ => ServeOutcome.serving

/-- How `http.Server.Shutdown(ctx)` waits: until a context deadline, after
which remaining connections are abandoned, or indefinitely when the context
has no deadline. -/
inductive WaitPolicy where
  | abandonAtDeadline (d : Nat)
  | waitIndefinitely
  deriving DecidableEq

structure ShutdownOutcome where
  stopsAcceptingNew : Bool
  waitsForActive : Bool
  policy : WaitPolicy
  deriving DecidableEq

/-- `http.Server.Shutdown(ctx)`: stops accepting new connections, waits for
active requests — up to `ctx`'s deadline if it has one, else forever. -/
def serverShutdown (ctx : GoContext) : ShutdownOutcome :=
  { stopsAcceptingNew := true
    waitsForActive := true
    policy :=
      match ctx.deadline with
      | some d => WaitPolicy.abandonAtDeadline d
      | none => WaitPolicy.waitIndefinitely }

/-- Routing wrapper kinds, mirroring which combinator each registration in
`main.go` uses. -/
inductive Wrapping where
  | logged
  | authGated
  deriving DecidableEq

/-- One observable step of `main`'s execution. -/
inductive Step where
  | logError (msg : String)
  | exitProcess (code : Nat)
  | setOAuth2 (c : OAuth2Config)
  | fatal (msg : String)
  | warn (msg : String)
  | setHTTPClient (c : HTTPClient)
  | initSessions
  | registerRoute (pat : String) (w : Wrapping)
  | setHTTPServer (s : HTTPServer)
  | spawnServe (m : ServeMode)
  | waitForSignals (sigs : List Signal)
  | logNotice (msg : String)
  | shutdownServer (ctx : GoContext)
  deriving DecidableEq

def Step.isSetOAuth2 : Step → Bool
  | Step.setOAuth2 _ => true
  | _ => false

/-- The five `http.HandleFunc`/`http.Handle` registrations, in source order. -/
def routeRegSteps : List Step :=
  [Step.registerRoute "/" Wrapping.logged,
   Step.registerRoute "/login" Wrapping.logged,
   Step.registerRoute "/callback" Wrapping.logged,
   Step.registerRoute "/logout" Wrapping.authGated,
   Step.registerRoute "/commandline" Wrapping.authGated]

/-- The closing steps of `main` once startup succeeded: build the server,
spawn the serve goroutine, block on SIGINT/SIGTERM, log, and call
`Shutdown(context.Background())`. -/
def traceTail (cfg : Config) : List Step :=
  [Step.setHTTPServer (mkHTTPServer cfg),
   Step.spawnServe (serveMode cfg),
   Step.waitForSignals [Signal.SIGINT, Signal.SIGTERM],
   Step.logNotice "Shutdown signal received, exiting.",
   Step.shutdownServer contextBackground]

/-- The startup steps of `main` after a successful config load and CA-pool
build: the single OAuth2 config assignment, any CA warning, the HTTP client,
session store init, and the route registrations. -/
def startupSteps (cfg : Config) (pool : List Cert) (warns : List String) :
    List Step :=
  Step.setOAuth2 (mkOAuth2Config cfg) ::
    (warns.map Step.warn ++
     [Step.setHTTPClient (buildHTTPClient pool), Step.initSessions] ++
     routeRegSteps)

/-- The step trace of `main` (lines 49-136 of `main.go`).  A config load
failure logs and exits with code 1; an unreadable `TrustedCAPath` is a fatal
log after the OAuth2 config was built; otherwise startup completes and the
process serves until a termination signal, then shuts down with a background
context. -/
def mainTrace (env : Env) : List Step :=
  match env.configLoad with
  | .error e =>
      [Step.logError ("Could not parse config file: " ++ e), Step.exitProcess 1]
  | .ok cfg =>
      match buildRootCAs env cfg with
      | .error msg => [Step.setOAuth2 (mkOAuth2Config cfg), Step.fatal msg]
      | .ok (pool, warns) => startupSteps cfg pool warns ++ traceTail cfg

/-! ### Concrete fixtures used by witnesses and counterexamples -/

def sampleCfg : Config :=
  { ClientID := "gangway"
    ClientSecret := "s3cr3t"
    RedirectURL := "https://gw.example.com/callback"
    Scopes := ["openid", "profile"]
    AuthorizeURL := "https://idp.example.com/auth"
    TokenURL := "https://idp.example.com/token"
    Host := "0.0.0.0"
    Port := 8080
    ServeTLS := false
    CertFile := ""
    KeyFile := ""
    TrustedCAPath := "/etc/gangway/ca.pem" }

/-- An environment whose custom CA file is readable and parses to one
certificate; the system pool holds certificates 1 and 2. -/
def sampleEnv : Env :=
  { configLoad := .ok sampleCfg
    systemCertPool := some [1, 2]
    readFile := fun p =>
      if p = "/etc/gangway/ca.pem" then .ok [7] else .error "no such file"
    parsePEMCerts := fun b => if b = [7] then [3] else [] }

/-- An environment whose config file does not parse. -/
def badCfgEnv : Env :=
  { configLoad := .error "boom"
    systemCertPool := none
    readFile := fun _ => .error "unused"
    parsePEMCerts := fun _ => [] }

/-- An environment whose custom CA file cannot be read. -/
def badCAEnv : Env :=
  { configLoad := .ok sampleCfg
    systemCertPool := some [1, 2]
    readFile := fun _ => .error "permission denied"
    parsePEMCerts := fun _ => [] }

/-- An environment whose custom CA file reads fine but yields no
certificate. -/
def zeroCertEnv : Env :=
  { configLoad := .ok sampleCfg
    systemCertPool := some [1, 2]
    readFile := fun p =>
      if p = "/etc/gangway/ca.pem" then .ok [9] else .error "no such file"
    parsePEMCerts := fun _ => [] }

def constHandler (n : Nat) : Handler := fun _ =>
  { logs := [], response := Response.content 200 (toString n) }

def sampleHandlers : Handlers :=
  { homeHandler := constHandler 0
    loginHandler := constHandler 1
    callbackHandler := constHandler 2
    logoutHandler := constHandler 3
    commandlineHandler := constHandler 4
    isAuth := fun _ => false }

def sampleRequest : Request :=
  { method := "GET", url := "/commandline", remoteAddr := "10.0.0.1:51234" }

/-! ### Claims -/

/-- C1: with `TrustedCAPath` set, an unreadable CA file makes startup
terminate fatally (the trace ends at the `log.Fatalf` step), while a readable
file parsing to zero certificates only yields the warning, keeps the pool as
the base (system) pool, and startup proceeds to install the HTTP client. -/
theorem c1_trusted_ca_error_handling (env₁ env₂ : Env) (cfg : Config)
    (e : String) (b : Bytes)
    (hcfg₁ : env₁.configLoad = .ok cfg)
    (hpath : cfg.TrustedCAPath ≠ "")
    (hread₁ : env₁.readFile cfg.TrustedCAPath = .error e)
    (hcfg₂ : env₂.configLoad = .ok cfg)
    (hread₂ : env₂.readFile cfg.TrustedCAPath = .ok b)
    (hzero : env₂.parsePEMCerts b = []) :
    mainTrace env₁ =
      [Step.setOAuth2 (mkOAuth2Config cfg),
       Step.fatal ("Failed to append " ++ cfg.TrustedCAPath ++
         " to RootCAs: " ++ e)] ∧
    buildRootCAs env₂ cfg =
      .ok (basePool env₂, ["No certs appended, using system certs only"]) ∧
    Step.setHTTPClient (buildHTTPClient (basePool env₂)) ∈ mainTrace env₂ := by
  have hca₁ : buildRootCAs env₁ cfg =
      .error ("Failed to append " ++ cfg.TrustedCAPath ++
        " to RootCAs: " ++ e) := by
    simp [buildRootCAs, hpath, hread₁]
  have hca₂ : buildRootCAs env₂ cfg =
      .ok (basePool env₂, ["No certs appended, using system certs only"]) := by
    simp [buildRootCAs, appendCertsFromPEM, hpath, hread₂, hzero]
  refine ⟨?_, hca₂, ?_⟩
  · simp [mainTrace, hcfg₁, hca₁]
  · simp [mainTrace, hcfg₂, hca₂, startupSteps, traceTail, routeRegSteps]

theorem c1_witness :
    mainTrace badCAEnv =
      [Step.setOAuth2 (mkOAuth2Config sampleCfg),
       Step.fatal ("Failed to append " ++ sampleCfg.TrustedCAPath ++
         " to RootCAs: " ++ "permission denied")] ∧
    buildRootCAs zeroCertEnv sampleCfg =
      .ok (basePool zeroCertEnv,
        ["No certs appended, using system certs only"]) ∧
    Step.setHTTPClient (buildHTTPClient (basePool zeroCertEnv)) ∈
      mainTrace zeroCertEnv :=
  c1_trusted_ca_error_handling badCAEnv zeroCertEnv sampleCfg
    "permission denied" [9] rfl (by decide) rfl rfl rfl rfl

/-- C2: whenever the root-CA build succeeds, the resulting pool is exactly the
base (system, or fresh empty) pool together with the certificates parsed from
the optional custom CA file, it is installed as the `RootCAs` of the client's
transport, and `main` installs that client. -/
theorem c2_client_trust_pool (env : Env) (cfg : Config)
    (pool : List Cert) (warns : List String)
    (hok : buildRootCAs env cfg = .ok (pool, warns))
    (hcfg : env.configLoad = .ok cfg) :
    pool = basePool env ++ customCerts env cfg ∧
    (buildHTTPClient pool).transport.tlsClientConfig.RootCAs = pool ∧
    Step.setHTTPClient (buildHTTPClient pool) ∈ mainTrace env := by
  refine ⟨?_, rfl, ?_⟩
  · unfold buildRootCAs at hok
    unfold customCerts
    by_cases hp : cfg.TrustedCAPath = ""
    · simp [hp] at hok ⊢
      exact hok.1.symm
    · simp [hp] at hok ⊢
      cases hread : env.readFile cfg.TrustedCAPath with
      | error e => rw [hread] at hok; simp at hok
      | ok b =>
          rw [hread] at hok
          simp [appendCertsFromPEM] at hok
          split at hok <;> simp at hok <;> exact hok.1.symm
  · simp [mainTrace, hcfg, hok, startupSteps, traceTail, routeRegSteps]

theorem c2_witness :
    ([1, 2, 3] : List Cert) = basePool sampleEnv ++ customCerts sampleEnv sampleCfg ∧
    (buildHTTPClient [1, 2, 3]).transport.tlsClientConfig.RootCAs = [1, 2, 3] ∧
    Step.setHTTPClient (buildHTTPClient [1, 2, 3]) ∈ mainTrace sampleEnv :=
  c2_client_trust_pool sampleEnv sampleCfg [1, 2, 3] [] rfl rfl

/-- C5: the HTTP server is built with a 10-second read timeout, a 10-second
write timeout, and the address formed from `Config.Host` and `Config.Port`. -/
theorem c5_server_config (cfg : Config) :
    (mkHTTPServer cfg).ReadTimeoutSeconds = 10 ∧
    (mkHTTPServer cfg).WriteTimeoutSeconds = 10 ∧
    (mkHTTPServer cfg).Addr = cfg.Host ++ ":" ++ toString cfg.Port :=
  ⟨rfl, rfl, rfl⟩

/-- C6: a config load/parse failure makes `main` log a diagnostic and exit
with the non-zero code 1, and a listener bind failure in the serve goroutine
is an immediate fatal exit (never retried or ignored). -/
theorem c6_startup_failures (env : Env) (e be : String)
    (hcfg : env.configLoad = .error e) :
    mainTrace env =
      [Step.logError ("Could not parse config file: " ++ e),
       Step.exitProcess 1] ∧
    (1 : Nat) ≠ 0 ∧
    runServe (Except.error be) = ServeOutcome.fatalExit be := by
  refine ⟨?_, by decide, rfl⟩
  simp [mainTrace, hcfg]

theorem c6_witness :
    mainTrace badCfgEnv =
      [Step.logError ("Could not parse config file: " ++ "boom"),
       Step.exitProcess 1] ∧
    (1 : Nat) ≠ 0 ∧
    runServe (Except.error "listen tcp 0.0.0.0:8080: bind: address already in use") =
      ServeOutcome.fatalExit "listen tcp 0.0.0.0:8080: bind: address already in use" :=
  c6_startup_failures badCfgEnv "boom"
    "listen tcp 0.0.0.0:8080: bind: address already in use" rfl

/-- C3 counterexample: `main` calls `Shutdown(context.Background())`; the
background context has no deadline, so the shutdown waits for in-flight
requests indefinitely — there is no deadline at which they are abandoned. -/
theorem c3_counterexample :
    (mainTrace sampleEnv).getLast? = some (Step.shutdownServer contextBackground) ∧
    contextBackground.deadline = none ∧
    (serverShutdown contextBackground).policy = WaitPolicy.waitIndefinitely :=
  ⟨rfl, rfl, rfl⟩

/-- C3 (amended): on SIGINT/SIGTERM the shutdown call stops accepting new
connections and waits for in-flight requests, but with a background context:
no deadline exists, so unfinished requests are waited on indefinitely rather
than abandoned. -/
theorem c3_shutdown_no_deadline (env : Env) (cfg : Config)
    (pool : List Cert) (warns : List String)
    (hcfg : env.configLoad = .ok cfg)
    (hca : buildRootCAs env cfg = .ok (pool, warns)) :
    mainTrace env =
      startupSteps cfg pool warns ++
        [Step.setHTTPServer (mkHTTPServer cfg),
         Step.spawnServe (serveMode cfg),
         Step.waitForSignals [Signal.SIGINT, Signal.SIGTERM],
         Step.logNotice "Shutdown signal received, exiting.",
         Step.shutdownServer contextBackground] ∧
    (serverShutdown contextBackground).stopsAcceptingNew = true ∧
    (serverShutdown contextBackground).waitsForActive = true ∧
    (serverShutdown contextBackground).policy = WaitPolicy.waitIndefinitely := by
  refine ⟨?_, rfl, rfl, rfl⟩
  simp [mainTrace, hcfg, hca, traceTail]

theorem c3_witness :
    mainTrace sampleEnv =
      startupSteps sampleCfg [1, 2, 3] [] ++
        [Step.setHTTPServer (mkHTTPServer sampleCfg),
         Step.spawnServe (serveMode sampleCfg),
         Step.waitForSignals [Signal.SIGINT, Signal.SIGTERM],
         Step.logNotice "Shutdown signal received, exiting.",
         Step.shutdownServer contextBackground] ∧
    (serverShutdown contextBackground).stopsAcceptingNew = true ∧
    (serverShutdown contextBackground).waitsForActive = true ∧
    (serverShutdown contextBackground).policy = WaitPolicy.waitIndefinitely :=
  c3_shutdown_no_deadline sampleEnv sampleCfg [1, 2, 3] [] rfl rfl

/-- C4: `/logout` and `/commandline` are registered behind the
`loginRequired` middleware; on an unauthenticated request the middleware
returns a 302 redirect to `/login` and its output does not depend on the
wrapped handler (the handler is not invoked), while `/`, `/login` and
`/callback` are registered with only the logging wrapper, which always runs
its handler. -/
theorem c4_access_gating (hs : Handlers) (r : Request) (g₁ g₂ : Handler)
    (hna : hs.isAuth r = false) :
    (routeTable hs).lookup "/logout" =
      some (loginRequired hs.isAuth hs.logoutHandler) ∧
    (routeTable hs).lookup "/commandline" =
      some (loginRequired hs.isAuth hs.commandlineHandler) ∧
    loginRequired hs.isAuth g₁ r =
      { logs := [], response := Response.redirect 302 "/login" } ∧
    loginRequired hs.isAuth g₁ r = loginRequired hs.isAuth g₂ r ∧
    (routeTable hs).lookup "/" = some (httpLogger hs.homeHandler) ∧
    (routeTable hs).lookup "/login" = some (httpLogger hs.loginHandler) ∧
    (routeTable hs).lookup "/callback" = some (httpLogger hs.callbackHandler) ∧
    (httpLogger hs.homeHandler r).response = (hs.homeHandler r).response := by
  refine ⟨rfl, rfl, ?_, ?_, rfl, rfl, rfl, rfl⟩
  · simp [loginRequired, hna]
  · simp [loginRequired, hna]

theorem c4_witness :
    (routeTable sampleHandlers).lookup "/logout" =
      some (loginRequired sampleHandlers.isAuth sampleHandlers.logoutHandler) ∧
    (routeTable sampleHandlers).lookup "/commandline" =
      some (loginRequired sampleHandlers.isAuth sampleHandlers.commandlineHandler) ∧
    loginRequired sampleHandlers.isAuth (constHandler 4) sampleRequest =
      { logs := [], response := Response.redirect 302 "/login" } ∧
    loginRequired sampleHandlers.isAuth (constHandler 4) sampleRequest =
      loginRequired sampleHandlers.isAuth (constHandler 9) sampleRequest ∧
    (routeTable sampleHandlers).lookup "/" =
      some (httpLogger sampleHandlers.homeHandler) ∧
    (routeTable sampleHandlers).lookup "/login" =
      some (httpLogger sampleHandlers.loginHandler) ∧
    (routeTable sampleHandlers).lookup "/callback" =
      some (httpLogger sampleHandlers.callbackHandler) ∧
    (httpLogger sampleHandlers.homeHandler sampleRequest).response =
      (sampleHandlers.homeHandler sampleRequest).response :=
  c4_access_gating sampleHandlers sampleRequest (constHandler 4)
    (constHandler 9) rfl

/-- C7: `main` performs exactly one assignment of the OAuth2 configuration,
whose value copies `ClientID`, `ClientSecret`, `RedirectURL`, `Scopes`,
`AuthorizeURL` (as the auth endpoint) and `TokenURL` (as the token endpoint)
out of `Config`; no later step of the trace touches it. -/
theorem c7_oauth2_built_once (env : Env) (cfg : Config)
    (hcfg : env.configLoad = .ok cfg) :
    (mainTrace env).countP (fun s => Step.isSetOAuth2 s) = 1 ∧
    Step.setOAuth2 (mkOAuth2Config cfg) ∈ mainTrace env ∧
    mkOAuth2Config cfg =
      { ClientID := cfg.ClientID
        ClientSecret := cfg.ClientSecret
        RedirectURL := cfg.RedirectURL
        Scopes := cfg.Scopes
        Endpoint := { AuthURL := cfg.AuthorizeURL, TokenURL := cfg.TokenURL } } := by
  refine ⟨?_, ?_, rfl⟩
  · cases hca : buildRootCAs env cfg with
    | error msg =>
        simp [mainTrace, hcfg, hca, Step.isSetOAuth2]
    | ok pw =>
        simp [mainTrace, hcfg, hca, startupSteps, traceTail, routeRegSteps,
          Step.isSetOAuth2, List.countP_cons, List.countP_append,
          List.countP_eq_zero]
  · cases hca : buildRootCAs env cfg with
    | error msg => simp [mainTrace, hcfg, hca]
    | ok pw =>
        simp [mainTrace, hcfg, hca, startupSteps, traceTail, routeRegSteps]

theorem c7_witness :
    (mainTrace sampleEnv).countP (fun s => Step.isSetOAuth2 s) = 1 ∧
    Step.setOAuth2 (mkOAuth2Config sampleCfg) ∈ mainTrace sampleEnv ∧
    mkOAuth2Config sampleCfg =
      { ClientID := sampleCfg.ClientID
        ClientSecret := sampleCfg.ClientSecret
        RedirectURL := sampleCfg.RedirectURL
        Scopes := sampleCfg.Scopes
        Endpoint := { AuthURL := sampleCfg.AuthorizeURL,
                      TokenURL := sampleCfg.TokenURL } } :=
  c7_oauth2_built_once sampleEnv sampleCfg rfl

/-- C8: after a successful startup, the trace is the startup steps followed by
the fixed tail in which the serve goroutine is spawned (position 1 of the
tail) strictly before the blocking signal wait (position 2), and the spawned
serve call uses TLS with the configured cert/key exactly when `ServeTLS` is
set. -/
theorem c8_serve_mode_and_ordering (env : Env) (cfg : Config)
    (pool : List Cert) (warns : List String)
    (hcfg : env.configLoad = .ok cfg)
    (hca : buildRootCAs env cfg = .ok (pool, warns)) :
    mainTrace env = startupSteps cfg pool warns ++ traceTail cfg ∧
    (traceTail cfg)[1]? = some (Step.spawnServe (serveMode cfg)) ∧
    (traceTail cfg)[2]? =
      some (Step.waitForSignals [Signal.SIGINT, Signal.SIGTERM]) ∧
    serveMode cfg =
      (if cfg.ServeTLS = true then ServeMode.tls cfg.CertFile cfg.KeyFile
       else ServeMode.plain) := by
  refine ⟨?_, rfl, rfl, rfl⟩
  simp [mainTrace, hcfg, hca]

theorem c8_witness :
    mainTrace sampleEnv = startupSteps sampleCfg [1, 2, 3] [] ++ traceTail sampleCfg ∧
    (traceTail sampleCfg)[1]? = some (Step.spawnServe (serveMode sampleCfg)) ∧
    (traceTail sampleCfg)[2]? =
      some (Step.waitForSignals [Signal.SIGINT, Signal.SIGTERM]) ∧
    serveMode sampleCfg =
      (if sampleCfg.ServeTLS = true then
        ServeMode.tls sampleCfg.CertFile sampleCfg.KeyFile
       else ServeMode.plain) :=
  c8_serve_mode_and_ordering sampleEnv sampleCfg [1, 2, 3] [] rfl rfl

/-- C9: the logging wrapper appends exactly one request line — carrying the
method, URL and remote address — after the wrapped handler's own output, and
it is the wrapper used for the `/`, `/login` and `/callback` routes. -/
theorem c9_request_logging (hs : Handlers) (fn : Handler) (r : Request) :
    httpLogger fn r =
      { logs := (fn r).logs ++
          [LogEvent.requestLine r.method r.url r.remoteAddr]
        response := (fn r).response } ∧
    (routeTable hs).lookup "/" = some (httpLogger hs.homeHandler) ∧
    (routeTable hs).lookup "/login" = some (httpLogger hs.loginHandler) ∧
    (routeTable hs).lookup "/callback" = some (httpLogger hs.callbackHandler) ∧
    ((httpLogger fn r).logs).count
        (LogEvent.requestLine r.method r.url r.remoteAddr) =
      ((fn r).logs).count (LogEvent.requestLine r.method r.url r.remoteAddr)
        + 1 := by
  refine ⟨rfl, rfl, rfl, rfl, ?_⟩
  simp [httpLogger]

/-- A list beginning with `'/'` has `['/']` among its initial segments. -/
theorem slash_list_head (l : List Char) (h : l.head? = some '/') :
    (['/'] : List Char).isPrefixOf l = true := by
  cases l with
  | nil => simp at h
  | cons c t =>
      simp at h
      simp [List.isPrefixOf, h]

/-- C10: any path starting with `/` that is not exactly `/login`, `/callback`,
`/logout` or `/commandline` is matched by the catch-all pattern `/` and
dispatched to the (logged) home handler, never a 404. -/
theorem c10_catchall_dispatch (hs : Handlers) (path : String)
    (hroot : path.data.head? = some '/')
    (h1 : path ≠ "/login") (h2 : path ≠ "/callback")
    (h3 : path ≠ "/logout") (h4 : path ≠ "/commandline") :
    muxMatch (registeredPatterns hs) path = some "/" ∧
    dispatch hs path = some (httpLogger hs.homeHandler) := by
  have e0 : patMatches "/" path = true := by
    unfold patMatches
    rw [if_pos (by decide)]
    have hd : ("/" : String).data = ['/'] := by decide
    rw [hd]
    exact slash_list_head path.data hroot
  have e1 : patMatches "/login" path = false := by
    unfold patMatches
    rw [if_neg (by decide)]
    exact beq_eq_false_iff_ne.mpr (Ne.symm h1)
  have e2 : patMatches "/callback" path = false := by
    unfold patMatches
    rw [if_neg (by decide)]
    exact beq_eq_false_iff_ne.mpr (Ne.symm h2)
  have e3 : patMatches "/logout" path = false := by
    unfold patMatches
    rw [if_neg (by decide)]
    exact beq_eq_false_iff_ne.mpr (Ne.symm h3)
  have e4 : patMatches "/commandline" path = false := by
    unfold patMatches
    rw [if_neg (by decide)]
    exact beq_eq_false_iff_ne.mpr (Ne.symm h4)
  have hm : muxMatch (registeredPatterns hs) path = some "/" := by
    simp [muxMatch, registeredPatterns, routeTable, List.filter,
      e0, e1, e2, e3, e4]
  refine ⟨hm, ?_⟩
  simp [dispatch, hm]
  rfl

theorem c10_witness :
    ("/unknown").data.head? = some '/' ∧
    muxMatch (registeredPatterns sampleHandlers) "/unknown" = some "/" ∧
    dispatch sampleHandlers "/unknown" =
      some (httpLogger sampleHandlers.homeHandler) :=
  ⟨by decide,
   c10_catchall_dispatch sampleHandlers "/unknown" (by decide)
     (by decide) (by decide) (by decide) (by decide)⟩

end Gangway
